import Mathlib

/-!
Verification of the record-translation core of the handsontable fragment:
`src/translations/recordTranslator.js` (the `RecordTranslator` class and the
translator registry `registerIdentity` / `getTranslator` / `getIdentity`),
together with the `IndexMapper` collaborator that the class composes.

Modelling conventions:
* A translated index is `Option Nat`: `some i` is an index, `none` is the
  unmapped sentinel (the spec leaves the concrete sentinel open: "-1 or
  undefined").
* JavaScript argument values reaching `toVisual` / `toPhysical` are modelled
  by the inductive `JSVal`; plain objects carry their `row` / `column` fields.
* The host (`hot`) is modelled by its only used capability: `runHooks`, a
  function from hook name and value to the (possibly transformed) value.
* Object identity in the registry is modelled by `Nat` identifiers; the
  `instanceof Core` test is a predicate `isCore` on identifiers; freshly
  created `RecordTranslator` objects are identified by an allocation counter.
-/

/-- A JavaScript value as it can reach the coordinate-translation entry
points.  The `obj` constructor models a plain object carrying `row` and
`column` fields; every other constructor is a non-object value. -/
inductive JSVal where
  | num (n : Nat)
  | str (s : String)
  | boolV (b : Bool)
  | nullV
  | undef
  | obj (row column : JSVal)
deriving DecidableEq, Repr

/-- Modelled from the spec: the object-shape helper `isObject` from
`helpers/object` (not under `src/`); per the spec it answers "is this value
object-like", true exactly for plain objects. -/
def isObject : JSVal → Bool
  | JSVal.obj _ _ => true
  | _ => false

/-- Modelled from the spec: the `IndexMapper` class from
`translations/indexMapper` (imported by the source but not under `src/`).
Per spec section 3 it owns `indexOrder`, the ordered sequence of physical
indexes, and `skipped`, the set of physical indexes excluded from visual
rendering. -/
structure IndexMapper where
  indexOrder : List Nat
  skipped : List Nat
deriving DecidableEq, Repr

/-- Modelled from the spec: the derived `visualOrder` — `indexOrder`
filtered to remove any index present in `skipped`; slot `i` is visual
index `i`. -/
def IndexMapper.visualOrder (m : IndexMapper) : List Nat :=
  m.indexOrder.filter (fun x => decide (x ∉ m.skipped))

/-- Modelled from the spec: `getVisualIndex(physicalIndex)`.  Indexes
unknown to `indexOrder` and skipped indexes yield the unmapped sentinel;
otherwise the result is the zero-based rank among all non-skipped physical
indexes walked in `indexOrder` order. -/
def IndexMapper.getVisualIndex (m : IndexMapper) (p : Nat) : Option Nat :=
  if p ∈ m.visualOrder then some (m.visualOrder.indexOf p) else none

/-- Modelled from the spec: `getPhysicalIndex(visualIndex)` — the physical
index sitting at rank `visualIndex` of the visual sequence; out-of-range
ranks yield the unmapped sentinel. -/
def IndexMapper.getPhysicalIndex (m : IndexMapper) (v : Nat) : Option Nat :=
  m.visualOrder[v]?

/-- Modelled from the spec: `getSkippedIndexes()` — read-only snapshot of
the skipped physical indexes. -/
def IndexMapper.getSkippedIndexes (m : IndexMapper) : List Nat :=
  m.skipped

/-- Modelled from the spec: `isSkipped(physicalIndex)` — membership test
against `skipped`. -/
def IndexMapper.isSkipped (m : IndexMapper) (p : Nat) : Bool :=
  decide (p ∈ m.skipped)

/-- Modelled from the spec: `setSkippedIndexes(newSkippedList)` — replaces
the entire skipped set. -/
def IndexMapper.setSkippedIndexes (m : IndexMapper) (indexes : List Nat) : IndexMapper :=
  { m with skipped := indexes }

/-- Modelled from the spec: a translated index reaching a mapper can be any
JavaScript value; only values that are actual indexes known to the mapper
translate, everything else is signalled via the unmapped sentinel. -/
def IndexMapper.getVisualIndexV (m : IndexMapper) (v : JSVal) : Option Nat :=
  match v with
  | JSVal.num n => m.getVisualIndex n
  | _ => none

/-- Modelled from the spec: visual→physical lookup lifted to JavaScript
values, symmetric to `getVisualIndexV`. -/
def IndexMapper.getPhysicalIndexV (m : IndexMapper) (v : JSVal) : Option Nat :=
  match v with
  | JSVal.num n => m.getPhysicalIndex n
  | _ => none

/-- The host grid object as the source uses it: only `runHooks(name, value)`,
which returns the (possibly transformed) value. -/
structure Hot where
  runHooks : String → Option Nat → Option Nat

/-- `RecordTranslator` state: the host reference plus one `IndexMapper` per
axis, exactly the fields set by the source constructor. -/
structure RecordTranslator where
  hot : Hot
  rowIndexMapper : IndexMapper
  columnIndexMapper : IndexMapper

/-- Source `toVisualRow`: delegate to the row mapper, pipe through the
`unmodifyRow` hook. -/
def RecordTranslator.toVisualRow (t : RecordTranslator) (row : JSVal) : Option Nat :=
  t.hot.runHooks "unmodifyRow" (t.rowIndexMapper.getVisualIndexV row)

/-- Source `toVisualColumn`: delegate to the column mapper, pipe through the
`unmodifyCol` hook. -/
def RecordTranslator.toVisualColumn (t : RecordTranslator) (column : JSVal) : Option Nat :=
  t.hot.runHooks "unmodifyCol" (t.columnIndexMapper.getVisualIndexV column)

/-- Source `toPhysicalRow`: row mapper inverse plus the `modifyRow` hook. -/
def RecordTranslator.toPhysicalRow (t : RecordTranslator) (row : JSVal) : Option Nat :=
  t.hot.runHooks "modifyRow" (t.rowIndexMapper.getPhysicalIndexV row)

/-- Source `toPhysicalColumn`: column mapper inverse plus the `modifyCol`
hook. -/
def RecordTranslator.toPhysicalColumn (t : RecordTranslator) (column : JSVal) : Option Nat :=
  t.hot.runHooks "modifyCol" (t.columnIndexMapper.getPhysicalIndexV column)

/-- Result of the dual-shape translation entry points: a two-element array
`[row, column]` or an object with `row` / `column` fields. -/
inductive TransResult where
  | arr (row column : Option Nat)
  | coords (row column : Option Nat)
deriving DecidableEq, Repr

/-- Source `toVisual`: dispatch on `isObject(row)`; an object argument has
its `row` / `column` fields translated into an object result, any other
first argument is used as the row index next to the second argument. -/
def RecordTranslator.toVisual (t : RecordTranslator) (row column : JSVal) : TransResult :=
  match row with
  | JSVal.obj r c => TransResult.coords (t.toVisualRow r) (t.toVisualColumn c)
  | _ => TransResult.arr (t.toVisualRow row) (t.toVisualColumn column)

/-- Source `toPhysical`: same dual-shape dispatch as `toVisual`, in the
visual→physical direction. -/
def RecordTranslator.toPhysical (t : RecordTranslator) (row column : JSVal) : TransResult :=
  match row with
  | JSVal.obj r c => TransResult.coords (t.toPhysicalRow r) (t.toPhysicalColumn c)
  | _ => TransResult.arr (t.toPhysicalRow row) (t.toPhysicalColumn column)

/-- Source `getSkippedRows`: pass-through to the row mapper. -/
def RecordTranslator.getSkippedRows (t : RecordTranslator) : List Nat :=
  t.rowIndexMapper.getSkippedIndexes

/-- Source `getSkippedColumns`: pass-through to the column mapper. -/
def RecordTranslator.getSkippedColumns (t : RecordTranslator) : List Nat :=
  t.columnIndexMapper.getSkippedIndexes

/-- Source `isSkippedRow`: pass-through to the row mapper. -/
def RecordTranslator.isSkippedRow (t : RecordTranslator) (row : Nat) : Bool :=
  t.rowIndexMapper.isSkipped row

/-- Source `isSkippedColumn`: pass-through to the column mapper. -/
def RecordTranslator.isSkippedColumn (t : RecordTranslator) (column : Nat) : Bool :=
  t.columnIndexMapper.isSkipped column

/-- Source `setSkippedRows`: pass-through mutation of the row mapper,
modelled functionally as returning the updated translator. -/
def RecordTranslator.setSkippedRows (t : RecordTranslator) (indexes : List Nat) : RecordTranslator :=
  { t with rowIndexMapper := t.rowIndexMapper.setSkippedIndexes indexes }

/-- Source `setSkippedColumns`: pass-through mutation of the column mapper,
modelled functionally as returning the updated translator. -/
def RecordTranslator.setSkippedColumns (t : RecordTranslator) (indexes : List Nat) : RecordTranslator :=
  { t with columnIndexMapper := t.columnIndexMapper.setSkippedIndexes indexes }

/-- State of the module-level registry: the `identities` WeakMap (lookup
key ↦ host), the `translatorSingletons` WeakMap (host ↦ translator), and an
allocation counter identifying each `RecordTranslator` object the registry
has constructed.  Objects are modelled by `Nat` identifiers. -/
structure RegistryState where
  identities : List (Nat × Nat)
  translatorSingletons : List (Nat × Nat)
  nextTranslatorId : Nat
deriving DecidableEq, Repr

/-- The registry before any call: both WeakMaps empty. -/
def RegistryState.initial : RegistryState :=
  { identities := [], translatorSingletons := [], nextTranslatorId := 0 }

/-- Source `registerIdentity`: `identities.set(identity, hot)`.  The new
binding is consed on; `List.lookup` returns the newest binding, matching
`WeakMap.set` / `WeakMap.get` overwrite semantics. -/
def registerIdentity (s : RegistryState) (identity hot : Nat) : RegistryState :=
  { s with identities := (identity, hot) :: s.identities }

/-- Source `getIdentity`: throws "Record translator was not registered for
this object identity" when the `identities` WeakMap has no binding,
otherwise returns the mapped host. -/
def getIdentity (s : RegistryState) (identity : Nat) : Except String Nat :=
  match s.identities.lookup identity with
  | none => Except.error "Record translator was not registered for this object identity"
  | some hot => Except.ok hot

/-- The first line of source `getTranslator`:
`identity instanceof Core ? identity : getIdentity(identity)`.
`isCore` is the `instanceof Core` membership test on object identifiers. -/
def resolveIdentity (isCore : Nat → Bool) (s : RegistryState) (identity : Nat) :
    Except String Nat :=
  if isCore identity then Except.ok identity else getIdentity s identity

/-- Source `getTranslator`: resolve the identity to a host instance, then
return the cached singleton for that instance or create (and cache) a new
`RecordTranslator`.  Returns the translator's identifier together with the
updated registry state. -/
def getTranslator (isCore : Nat → Bool) (s : RegistryState) (identity : Nat) :
    Except String (Nat × RegistryState) :=
  match resolveIdentity isCore s identity with
  | Except.error e => Except.error e
  | Except.ok inst =>
    match s.translatorSingletons.lookup inst with
    | some singleton => Except.ok (singleton, s)
    | none =>
      Except.ok (s.nextTranslatorId,
        { s with
          translatorSingletons := (inst, s.nextTranslatorId) :: s.translatorSingletons,
          nextTranslatorId := s.nextTranslatorId + 1 })

/-- One observable call into the registry module. -/
inductive RegOp where
  | register (identity hot : Nat)
  | translate (identity : Nat)
deriving DecidableEq, Repr

/-- Apply one registry call to the state (a failed `getTranslator` leaves
the state unchanged). -/
def RegOp.apply (isCore : Nat → Bool) (s : RegistryState) : RegOp → RegistryState
  | RegOp.register identity hot => registerIdentity s identity hot
  | RegOp.translate identity =>
    match getTranslator isCore s identity with
    | Except.ok (_, s₂) => s₂
    | Except.error _ => s

/-- Run a sequence of registry calls from a starting state. -/
def runRegOps (isCore : Nat → Bool) (s : RegistryState) : List RegOp → RegistryState
  | [] => s
  | op :: ops => runRegOps isCore (op.apply isCore s) ops

/-- Whether a call sequence ever registers the given identity as a key. -/
def registersKey (key : Nat) : List RegOp → Bool
  | [] => false
  | RegOp.register identity _ :: ops => identity = key || registersKey key ops
  | RegOp.translate _ :: ops => registersKey key ops

/-- Test fixture: an axis of five physical indexes with index 1 skipped
(the scenario from spec section 8). -/
def exMapper : IndexMapper :=
  { indexOrder := [0, 1, 2, 3, 4], skipped := [1] }

/-- Test fixture: a host whose hooks return the translated value
unchanged. -/
def exHot : Hot :=
  { runHooks := fun _ v => v }

/-- Test fixture: translator over `exMapper` on both axes with identity
hooks. -/
def exRT : RecordTranslator :=
  { hot := exHot, rowIndexMapper := exMapper, columnIndexMapper := exMapper }

/-- Test fixture: a host whose hooks replace the unmapped sentinel by the
index 7 and keep mapped indexes unchanged. -/
def exHotSentinel : Hot :=
  { runHooks := fun _ v => match v with | none => some 7 | some n => some n }

/-- Test fixture: translator whose hooks transform the sentinel. -/
def exRTSentinel : RecordTranslator :=
  { hot := exHotSentinel, rowIndexMapper := exMapper, columnIndexMapper := exMapper }

/-- C1: each single-axis translation delegates to its IndexMapper and passes
the mapper's result through the corresponding host hook (`unmodifyRow`,
`unmodifyCol`, `modifyRow`, `modifyCol`); the hook's return value is the
final result. -/
theorem single_axis_translation_hook_contract (t : RecordTranslator) (row column : JSVal) :
    t.toVisualRow row = t.hot.runHooks "unmodifyRow" (t.rowIndexMapper.getVisualIndexV row) ∧
    t.toVisualColumn column = t.hot.runHooks "unmodifyCol" (t.columnIndexMapper.getVisualIndexV column) ∧
    t.toPhysicalRow row = t.hot.runHooks "modifyRow" (t.rowIndexMapper.getPhysicalIndexV row) ∧
    t.toPhysicalColumn column = t.hot.runHooks "modifyCol" (t.columnIndexMapper.getPhysicalIndexV column) :=
  ⟨rfl, rfl, rfl, rfl⟩

/-- C2: for every row `r` and column `c`, the scalar-pair call shape of
`toVisual` returns the two-element pair of `toVisualRow r` and
`toVisualColumn c`, the object call shape returns a coordinate object
holding those same two values, and likewise for `toPhysical` (hooks are
modelled as functions, so their effect cannot depend on call shape). -/
theorem coordinate_shape_equivalence (t : RecordTranslator) (r c : Nat) (pad : JSVal) :
    t.toVisual (JSVal.num r) (JSVal.num c) =
      TransResult.arr (t.toVisualRow (JSVal.num r)) (t.toVisualColumn (JSVal.num c)) ∧
    t.toVisual (JSVal.obj (JSVal.num r) (JSVal.num c)) pad =
      TransResult.coords (t.toVisualRow (JSVal.num r)) (t.toVisualColumn (JSVal.num c)) ∧
    t.toPhysical (JSVal.num r) (JSVal.num c) =
      TransResult.arr (t.toPhysicalRow (JSVal.num r)) (t.toPhysicalColumn (JSVal.num c)) ∧
    t.toPhysical (JSVal.obj (JSVal.num r) (JSVal.num c)) pad =
      TransResult.coords (t.toPhysicalRow (JSVal.num r)) (t.toPhysicalColumn (JSVal.num c)) :=
  ⟨rfl, rfl, rfl, rfl⟩

/-- C3: for every physical index within the axis range and not skipped,
`getPhysicalIndex (getVisualIndex p) = p`. -/
theorem roundtrip_physical_visual_physical (m : IndexMapper) (p : Nat)
    (hin : p ∈ m.indexOrder) (hns : m.isSkipped p = false) :
    (m.getVisualIndex p).bind m.getPhysicalIndex = some p := by
  have hsk : p ∉ m.skipped := by
    simpa [IndexMapper.isSkipped] using hns
  have hmem : p ∈ m.visualOrder := by
    simp [IndexMapper.visualOrder, List.mem_filter, hin, hsk]
  simp only [IndexMapper.getVisualIndex, if_pos hmem, Option.bind_some,
    IndexMapper.getPhysicalIndex]
  exact List.getElem?_indexOf hmem

/-- Witness for C3 at the spec scenario: index 3 of `[0,1,2,3,4]` with
index 1 skipped round-trips to itself. -/
theorem roundtrip_physical_visual_physical_witness :
    3 ∈ exMapper.indexOrder ∧ exMapper.isSkipped 3 = false ∧
    (exMapper.getVisualIndex 3).bind exMapper.getPhysicalIndex = some 3 :=
  ⟨by decide, by decide, roundtrip_physical_visual_physical exMapper 3 (by decide) (by decide)⟩

/-- C7: any first argument that is not object-like is treated as the
scalar-pair call shape by both `toVisual` and `toPhysical`: the first
argument is used as the row index, the second as the column index, and the
two-element-pair result is returned; the dispatch itself is total and
raises nothing. -/
theorem nonobject_first_argument_scalar_dispatch (t : RecordTranslator) (row column : JSVal)
    (h : isObject row = false) :
    t.toVisual row column = TransResult.arr (t.toVisualRow row) (t.toVisualColumn column) ∧
    t.toPhysical row column = TransResult.arr (t.toPhysicalRow row) (t.toPhysicalColumn column) := by
  cases row <;> simp_all [isObject, RecordTranslator.toVisual, RecordTranslator.toPhysical]

/-- Witness for C7: a string first argument is not object-like and yields
the scalar-pair result shape. -/
theorem nonobject_first_argument_scalar_dispatch_witness :
    isObject (JSVal.str "oops") = false ∧
    exRT.toVisual (JSVal.str "oops") (JSVal.num 0) =
      TransResult.arr (exRT.toVisualRow (JSVal.str "oops")) (exRT.toVisualColumn (JSVal.num 0)) ∧
    exRT.toPhysical (JSVal.str "oops") (JSVal.num 0) =
      TransResult.arr (exRT.toPhysicalRow (JSVal.str "oops")) (exRT.toPhysicalColumn (JSVal.num 0)) :=
  ⟨rfl, (nonobject_first_argument_scalar_dispatch exRT (JSVal.str "oops") (JSVal.num 0) rfl).1,
    (nonobject_first_argument_scalar_dispatch exRT (JSVal.str "oops") (JSVal.num 0) rfl).2⟩

/-- C8: the six skip accessors are direct pass-throughs to the
corresponding IndexMapper of their axis. -/
theorem skip_accessors_passthrough (t : RecordTranslator) (r c : Nat) (l : List Nat) :
    t.getSkippedRows = t.rowIndexMapper.getSkippedIndexes ∧
    t.getSkippedColumns = t.columnIndexMapper.getSkippedIndexes ∧
    t.isSkippedRow r = t.rowIndexMapper.isSkipped r ∧
    t.isSkippedColumn c = t.columnIndexMapper.isSkipped c ∧
    t.setSkippedRows l = { t with rowIndexMapper := t.rowIndexMapper.setSkippedIndexes l } ∧
    t.setSkippedColumns l = { t with columnIndexMapper := t.columnIndexMapper.setSkippedIndexes l } :=
  ⟨rfl, rfl, rfl, rfl, rfl, rfl⟩

/-- C9: when an IndexMapper yields the unmapped sentinel, each single-axis
translation still invokes its hook on the sentinel and returns whatever the
hook yields; the sentinel is never short-circuited past the hook. -/
theorem sentinel_passed_through_hook (t : RecordTranslator) (v : JSVal) :
    (t.rowIndexMapper.getVisualIndexV v = none →
      t.toVisualRow v = t.hot.runHooks "unmodifyRow" none) ∧
    (t.columnIndexMapper.getVisualIndexV v = none →
      t.toVisualColumn v = t.hot.runHooks "unmodifyCol" none) ∧
    (t.rowIndexMapper.getPhysicalIndexV v = none →
      t.toPhysicalRow v = t.hot.runHooks "modifyRow" none) ∧
    (t.columnIndexMapper.getPhysicalIndexV v = none →
      t.toPhysicalColumn v = t.hot.runHooks "modifyCol" none) := by
  refine ⟨fun h => ?_, fun h => ?_, fun h => ?_, fun h => ?_⟩ <;>
    simp [RecordTranslator.toVisualRow, RecordTranslator.toVisualColumn,
      RecordTranslator.toPhysicalRow, RecordTranslator.toPhysicalColumn, h]

/-- Witness for C9: index 9 is out of range, the mapper yields the
sentinel, and the sentinel-transforming hook turns it into 7 — the result
is determined by the hook, not fixed to the sentinel. -/
theorem sentinel_passed_through_hook_witness :
    exRTSentinel.rowIndexMapper.getVisualIndexV (JSVal.num 9) = none ∧
    exRTSentinel.toVisualRow (JSVal.num 9) = exRTSentinel.hot.runHooks "unmodifyRow" none ∧
    exRTSentinel.toVisualRow (JSVal.num 9) = some 7 :=
  ⟨by decide, (sentinel_passed_through_hook exRTSentinel (JSVal.num 9)).1 (by decide), by decide⟩

/-- A successful `getTranslator` call never touches the `identities`
WeakMap. -/
theorem getTranslator_ok_identities (isCore : Nat → Bool) (s : RegistryState) (identity t : Nat)
    (s₂ : RegistryState) (h : getTranslator isCore s identity = Except.ok (t, s₂)) :
    s₂.identities = s.identities := by
  unfold getTranslator at h
  cases hres : resolveIdentity isCore s identity with
  | error e => rw [hres] at h; cases h
  | ok inst =>
    rw [hres] at h
    dsimp only at h
    cases hl : s.translatorSingletons.lookup inst with
    | some singleton => rw [hl] at h; cases h; rfl
    | none => rw [hl] at h; cases h; rfl

/-- One registry call cannot remove or change the `identities` binding of a
key it does not register. -/
theorem apply_preserves_identities_lookup (isCore : Nat → Bool) (key : Nat) (op : RegOp)
    (s : RegistryState) (h : registersKey key [op] = false) :
    ((op.apply isCore s).identities.lookup key) = s.identities.lookup key := by
  cases op with
  | register identity hot =>
    have hne : key ≠ identity := by
      simp [registersKey] at h
      exact fun e => h e.symm
    have hb : (key == identity) = false := beq_false_of_ne hne
    simp [RegOp.apply, registerIdentity, List.lookup, hb]
  | translate identity =>
    simp only [RegOp.apply]
    cases hg : getTranslator isCore s identity with
    | error e => rfl
    | ok pair =>
      rw [getTranslator_ok_identities isCore s identity pair.1 pair.2 (by rw [hg])]

/-- Running a call sequence that never registers a key leaves that key's
`identities` binding untouched. -/
theorem runRegOps_preserves_identities_lookup (isCore : Nat → Bool) (key : Nat)
    (ops : List RegOp) (s : RegistryState) (h : registersKey key ops = false) :
    (runRegOps isCore s ops).identities.lookup key = s.identities.lookup key := by
  induction ops generalizing s with
  | nil => rfl
  | cons op ops ih =>
    have hop : registersKey key [op] = false := by
      cases op <;> simp_all [registersKey]
    have hops : registersKey key ops = false := by
      cases op <;> simp_all [registersKey]
    rw [runRegOps, ih (op.apply isCore s) hops,
      apply_preserves_identities_lookup isCore key op s hop]

/-- C4: starting from the empty registry, after any sequence of registry
calls that never registers a given key, `getTranslator` on that key — when
the key is not itself a Core host instance — raises the "not registered"
error instead of returning a default translator. -/
theorem unregistered_identity_error (isCore : Nat → Bool) (key : Nat) (ops : List RegOp)
    (hnc : isCore key = false) (hnr : registersKey key ops = false) :
    getTranslator isCore (runRegOps isCore RegistryState.initial ops) key =
      Except.error "Record translator was not registered for this object identity" := by
  have hlook : (runRegOps isCore RegistryState.initial ops).identities.lookup key = none := by
    rw [runRegOps_preserves_identities_lookup isCore key ops RegistryState.initial hnr]; rfl
  unfold getTranslator resolveIdentity getIdentity
  rw [hnc, hlook]
  rfl

/-- Witness for C4: key 7 was never registered across a register and a
translate call, and is not a Core instance, so its lookup errors. -/
theorem unregistered_identity_error_witness :
    (fun n => decide (n = 5)) 7 = false ∧
    registersKey 7 [RegOp.register 3 4, RegOp.translate 3] = false ∧
    getTranslator (fun n => decide (n = 5))
        (runRegOps (fun n => decide (n = 5)) RegistryState.initial
          [RegOp.register 3 4, RegOp.translate 3]) 7 =
      Except.error "Record translator was not registered for this object identity" :=
  ⟨rfl, rfl, unregistered_identity_error (fun n => decide (n = 5)) 7
    [RegOp.register 3 4, RegOp.translate 3] rfl rfl⟩

/-- Whether an `Except` result is a success. -/
def isOkE {ε α : Type} : Except ε α → Bool
  | Except.ok _ => true
  | Except.error _ => false

/-- A successful `getTranslator` call never removes or changes an existing
singleton binding. -/
theorem getTranslator_preserves_singleton (isCore : Nat → Bool) (s : RegistryState)
    (identity host tid t : Nat) (s₂ : RegistryState)
    (h : s.translatorSingletons.lookup host = some tid)
    (hg : getTranslator isCore s identity = Except.ok (t, s₂)) :
    s₂.translatorSingletons.lookup host = some tid := by
  unfold getTranslator at hg
  cases hres : resolveIdentity isCore s identity with
  | error e => rw [hres] at hg; cases hg
  | ok inst =>
    rw [hres] at hg
    dsimp only at hg
    cases hl : s.translatorSingletons.lookup inst with
    | some singleton => rw [hl] at hg; cases hg; exact h
    | none =>
      rw [hl] at hg; cases hg
      have hne : host ≠ inst := fun e => by rw [e, hl] at h; cases h
      have hb : (host == inst) = false := beq_false_of_ne hne
      simpa [List.lookup, hb] using h

/-- One registry call preserves an existing singleton binding. -/
theorem apply_preserves_singleton (isCore : Nat → Bool) (op : RegOp) (s : RegistryState)
    (host tid : Nat) (h : s.translatorSingletons.lookup host = some tid) :
    (op.apply isCore s).translatorSingletons.lookup host = some tid := by
  cases op with
  | register identity hot => exact h
  | translate identity =>
    simp only [RegOp.apply]
    cases hg : getTranslator isCore s identity with
    | error e => exact h
    | ok pair =>
      obtain ⟨t, s₂⟩ := pair
      exact getTranslator_preserves_singleton isCore s identity host tid t s₂ h hg

/-- Any later call sequence preserves an existing singleton binding. -/
theorem runRegOps_preserves_singleton (isCore : Nat → Bool) (ops : List RegOp)
    (s : RegistryState) (host tid : Nat)
    (h : s.translatorSingletons.lookup host = some tid) :
    (runRegOps isCore s ops).translatorSingletons.lookup host = some tid := by
  induction ops generalizing s with
  | nil => exact h
  | cons op ops ih =>
    exact ih (op.apply isCore s) (apply_preserves_singleton isCore op s host tid h)

/-- C5: for every lookup resolving to a host, the first `getTranslator`
call for that host creates exactly one fresh translator and caches it under
the host; any call finding a cached translator returns it with the registry
unchanged; and no later registry call ever replaces the cached binding — so
a second instance is never created for one host. -/
theorem translator_singleton_per_host (isCore : Nat → Bool) (s : RegistryState)
    (key host : Nat) (hres : resolveIdentity isCore s key = Except.ok host) :
    (s.translatorSingletons.lookup host = none →
      getTranslator isCore s key = Except.ok (s.nextTranslatorId,
        { s with
          translatorSingletons := (host, s.nextTranslatorId) :: s.translatorSingletons,
          nextTranslatorId := s.nextTranslatorId + 1 })) ∧
    (∀ tid, s.translatorSingletons.lookup host = some tid →
      getTranslator isCore s key = Except.ok (tid, s)) ∧
    (∀ tid ops, s.translatorSingletons.lookup host = some tid →
      (runRegOps isCore s ops).translatorSingletons.lookup host = some tid) := by
  refine ⟨fun hnone => ?_, fun tid htid => ?_, fun tid ops htid => ?_⟩
  · unfold getTranslator
    rw [hres]
    dsimp only
    rw [hnone]
  · unfold getTranslator
    rw [hres]
    dsimp only
    rw [htid]
  · exact runRegOps_preserves_singleton isCore ops s host tid htid

/-- Test fixture: object 5 is the only Core host instance. -/
def exIsCore : Nat → Bool := fun n => decide (n = 5)

/-- Test fixture: the registry right after the translator for host 5 was
created. -/
def exC5State : RegistryState :=
  { identities := [], translatorSingletons := [(5, 0)], nextTranslatorId := 1 }

/-- Witness for C5: host 5's first lookup creates translator 0; a repeat
lookup returns the same translator and state; the binding survives later
registry calls. -/
theorem translator_singleton_per_host_witness :
    resolveIdentity exIsCore RegistryState.initial 5 = Except.ok 5 ∧
    getTranslator exIsCore RegistryState.initial 5 = Except.ok (0, exC5State) ∧
    getTranslator exIsCore exC5State 5 = Except.ok (0, exC5State) ∧
    (runRegOps exIsCore exC5State
      [RegOp.register 2 5, RegOp.translate 2]).translatorSingletons.lookup 5 = some 0 :=
  ⟨rfl,
    (translator_singleton_per_host exIsCore RegistryState.initial 5 5 rfl).1 rfl,
    (translator_singleton_per_host exIsCore exC5State 5 5 rfl).2.1 0 rfl,
    (translator_singleton_per_host exIsCore exC5State 5 5 rfl).2.2 0
      [RegOp.register 2 5, RegOp.translate 2] rfl⟩

/-- Test fixture: objects 0 and 1 are both Core host instances. -/
def exIsCoreC : Nat → Bool := fun n => decide (n ≤ 1)

/-- Counterexample to C6 as stated: key 0 is itself a Core host instance,
so after `registerIdentity 0 1` a lookup of key 0 bypasses the registered
association — it succeeds, but caches and returns a translator keyed under
0, while host 1 gets no translator at all. -/
theorem registered_core_key_counterexample :
    exIsCoreC 0 = true ∧
    getTranslator exIsCoreC (registerIdentity RegistryState.initial 0 1) 0 =
      Except.ok (0,
        { identities := [(0, 1)], translatorSingletons := [(0, 0)], nextTranslatorId := 1 }) ∧
    ({ identities := [(0, 1)], translatorSingletons := [(0, 0)],
       nextTranslatorId := 1 } : RegistryState).translatorSingletons.lookup 1 = none :=
  ⟨rfl, rfl, rfl⟩

/-- C6 (amended): for every key that is not itself a Core host instance,
after `registerIdentity key host` the call `getTranslator key` succeeds and
the translator it returns is the one cached under the host. -/
theorem registered_key_yields_host_translator (isCore : Nat → Bool) (s : RegistryState)
    (key host : Nat) (hnc : isCore key = false) :
    isOkE (getTranslator isCore (registerIdentity s key host) key) = true ∧
    (∀ tid s₂, getTranslator isCore (registerIdentity s key host) key = Except.ok (tid, s₂) →
      s₂.translatorSingletons.lookup host = some tid) := by
  have hres : resolveIdentity isCore (registerIdentity s key host) key = Except.ok host := by
    simp [resolveIdentity, hnc, getIdentity, registerIdentity, List.lookup]
  constructor
  · unfold getTranslator
    rw [hres]
    dsimp only
    cases hl : (registerIdentity s key host).translatorSingletons.lookup host <;> rfl
  · intro tid s₂ hg
    unfold getTranslator at hg
    rw [hres] at hg
    dsimp only at hg
    cases hl : (registerIdentity s key host).translatorSingletons.lookup host with
    | some t0 => rw [hl] at hg; cases hg; exact hl
    | none => rw [hl] at hg; cases hg; simp [List.lookup]

/-- Test fixture: the registry after `registerIdentity 2 9` and the
creation of host 9's translator. -/
def exC6State : RegistryState :=
  { identities := [(2, 9)], translatorSingletons := [(9, 0)], nextTranslatorId := 1 }

/-- Witness for amended C6: key 2 (not a Core instance) registered to host
9 resolves successfully, and the returned translator 0 is cached under
host 9. -/
theorem registered_key_yields_host_translator_witness :
    exIsCore 2 = false ∧
    isOkE (getTranslator exIsCore (registerIdentity RegistryState.initial 2 9) 2) = true ∧
    exC6State.translatorSingletons.lookup 9 = some 0 :=
  ⟨rfl, (registered_key_yields_host_translator exIsCore RegistryState.initial 2 9 rfl).1,
    (registered_key_yields_host_translator exIsCore RegistryState.initial 2 9 rfl).2
      0 exC6State rfl⟩

/-- Counterexample to C10 as stated: with key 0 itself a Core host instance
registered to Core host 1, `getTranslator 0` and `getTranslator 1` return
two different translators (ids 0 and 1), because a Core-instance key
resolves to itself, bypassing its registered association. -/
theorem singleton_keyed_counterexample :
    exIsCoreC 0 = true ∧ exIsCoreC 1 = true ∧
    getTranslator exIsCoreC (registerIdentity RegistryState.initial 0 1) 0 =
      Except.ok (0,
        { identities := [(0, 1)], translatorSingletons := [(0, 0)], nextTranslatorId := 1 }) ∧
    getTranslator exIsCoreC
        { identities := [(0, 1)], translatorSingletons := [(0, 0)], nextTranslatorId := 1 } 1 =
      Except.ok (1,
        { identities := [(0, 1)], translatorSingletons := [(1, 1), (0, 0)],
          nextTranslatorId := 2 }) ∧
    (0 : Nat) ≠ 1 :=
  ⟨rfl, rfl, rfl, rfl, by decide⟩

/-- C10 (amended): translator singletons are keyed by the resolved host —
any two lookups whose identities resolve to the same host (a registered
non-Core key, or the Core host itself) return the identical translator
after the first of them created it, with no further state change. -/
theorem singleton_keyed_by_resolved_host (isCore : Nat → Bool) (s s₂ : RegistryState)
    (k₁ k₂ host t : Nat)
    (h₁ : resolveIdentity isCore s k₁ = Except.ok host)
    (h₂ : resolveIdentity isCore s k₂ = Except.ok host)
    (hc : getTranslator isCore s k₁ = Except.ok (t, s₂)) :
    getTranslator isCore s₂ k₂ = Except.ok (t, s₂) := by
  have hid : s₂.identities = s.identities :=
    getTranslator_ok_identities isCore s k₁ t s₂ hc
  have hsing : s₂.translatorSingletons.lookup host = some t := by
    unfold getTranslator at hc
    rw [h₁] at hc
    dsimp only at hc
    cases hl : s.translatorSingletons.lookup host with
    | some t0 => rw [hl] at hc; cases hc; exact hl
    | none => rw [hl] at hc; cases hc; simp [List.lookup]
  have hres₂ : resolveIdentity isCore s₂ k₂ = Except.ok host := by
    unfold resolveIdentity getIdentity at h₂ ⊢
    rw [hid]
    exact h₂
  unfold getTranslator
  rw [hres₂]
  dsimp only
  rw [hsing]

/-- Test fixture: key 2 registered to Core host 5, no translator yet. -/
def exC10State : RegistryState :=
  { identities := [(2, 5)], translatorSingletons := [], nextTranslatorId := 0 }

/-- Test fixture: `exC10State` after host 5's translator 0 was created. -/
def exC10State₂ : RegistryState :=
  { identities := [(2, 5)], translatorSingletons := [(5, 0)], nextTranslatorId := 1 }

/-- Witness for amended C10: key 2 and Core host 5 both resolve to host 5;
after the lookup of key 2 created translator 0, the lookup of 5 itself
returns the identical translator with no state change. -/
theorem singleton_keyed_by_resolved_host_witness :
    resolveIdentity exIsCore exC10State 2 = Except.ok 5 ∧
    resolveIdentity exIsCore exC10State 5 = Except.ok 5 ∧
    getTranslator exIsCore exC10State 2 = Except.ok (0, exC10State₂) ∧
    getTranslator exIsCore exC10State₂ 5 = Except.ok (0, exC10State₂) :=
  ⟨rfl, rfl, rfl,
    singleton_keyed_by_resolved_host exIsCore exC10State exC10State₂ 2 5 5 0 rfl rfl rfl⟩
